import Mathlib

/-!
Shallow embedding of the WebAuthn ceremony core of the SLH_L2-WebAuth
repository (src/lab02): the `webauthn` utility module, the unauthenticated
ceremony handlers, the like/dislike handler, and the database/token layer
those handlers call.

Handlers are embedded as pure state-passing functions over an explicit
`AppState`.  Nondeterministic inputs of the real code (fresh UUIDs, fresh
challenges, fresh tokens, mail-delivery outcome) are passed as arguments.
External library calls (webauthn-rs ceremony verification, the validator
crate's email check) and the repository's `crate::database` module, whose
sources are not part of the four provided files, are modelled from the
spec, as marked on each definition.
-/

namespace WebAuth

/-- Outcome of a handler: HTTP-style success, HTTP-style error, or a Rust
panic (`unwrap` on `None`). -/
inductive HResult (α : Type) where
  | ok (val : α)
  | err (code : Nat) (msg : String)
  | crash (msg : String)
deriving DecidableEq, Repr

/-- A stored public-key credential ("passkey"). -/
structure Passkey where
  credId : String
  pubKey : String
deriving DecidableEq, Repr

/-- A durable user record (`crate::database::user`), modelled from the
spec: email-keyed record with display names, verification flag and at most
one credential. -/
structure UserRecord where
  firstName : String
  lastName : String
  verified : Bool
  passkey : Option Passkey
deriving DecidableEq, Repr

/-- Modelled from the spec: the webauthn-rs library's opaque registration
state; §4.1 says completion verifies the response "against the exact state
object produced by the matching beginRegistration call", so the state
carries the issued challenge. -/
structure PasskeyRegistration where
  challenge : String
deriving DecidableEq, Repr

/-- `StoredRegistrationState` from src/utils/webauthn.rs. -/
structure StoredRegistrationState where
  registration_state : PasskeyRegistration
  challenge : String
deriving DecidableEq, Repr

/-- Modelled from the spec: the webauthn-rs library's opaque
authentication state, "capturing the set of acceptable credentials" and
the issued challenge (§4.1). -/
structure PasskeyAuthentication where
  challenge : String
  allowed : List Passkey
deriving DecidableEq, Repr

/-- `TimedStoredState<PasskeyAuthentication>` from
src/backend/handlers_unauth.rs. -/
structure TimedStoredState where
  state : PasskeyAuthentication
  server_challenge : String
deriving DecidableEq, Repr

/-- A parsed `RegisterPublicKeyCredential`: the client's signed
attestation response.  Modelled from the spec: it embeds the challenge the
client signed, a flag for signature/attestation validity, and the new
credential it attests. -/
structure RegisterPublicKeyCredential where
  challenge : String
  valid : Bool
  passkey : Passkey
deriving DecidableEq, Repr

/-- A parsed `PublicKeyCredential`: the client's signed assertion
response.  Modelled from the spec: it embeds the challenge the client
signed, the credential id used, and a flag for signature validity. -/
structure PublicKeyCredential where
  challenge : String
  credId : String
  valid : Bool
deriving DecidableEq, Repr

/-- The process-wide mutable state: the durable user store and token store
(`crate::database`, modelled from the spec §4.3/§4.4), `CREDENTIAL_STORE`
(src/utils/webauthn.rs), `REGISTRATION_STATES` and `AUTHENTICATION_STATES`
(src/backend/handlers_unauth.rs), and a log of fire-and-forget failures. -/
structure AppState where
  users : String → Option UserRecord
  tokens : String → Option String
  credentialStore : String → Option Passkey
  registrationStates : String → Option StoredRegistrationState
  authenticationStates : String → Option TimedStoredState
  log : List String

/-- Point update of a string-keyed map. -/
def update {α : Type} (m : String → Option α) (k : String) (v : Option α) :
    String → Option α :=
  fun k2 => if k2 = k then v else m k2

/-- Modelled from the spec: the external validator crate's syntactic email
check (`email.validate_email()`); theorems only ever assume its Boolean
outcome. -/
def validate_email (s : String) : Bool :=
  match s.toList.splitOn '@' with
  | [lp, dom] => !lp.isEmpty && !dom.isEmpty && dom.contains '.'
  | _ => false

/-- One character of the display-name character class of
src/utils/input.rs (ASCII letters, the Latin-1 letter ranges, whitespace,
hyphen, apostrophe). -/
def display_name_char_ok (c : Char) : Bool :=
  ('a' ≤ c && c ≤ 'z') || ('A' ≤ c && c ≤ 'Z') ||
  ('À' ≤ c && c ≤ 'Ö') || ('Ø' ≤ c && c ≤ 'ö') || ('ø' ≤ c && c ≤ 'ÿ') ||
  c = ' ' || c = '\t' || c = '\n' || c = '\r' ||
  c = '-' || c = Char.ofNat 39

/-- `is_valid_display_name` from src/utils/input.rs: the regex
`^[a-zA-ZÀ-ÖØ-öø-ÿ\s'-]{2,50}$`. -/
def is_valid_display_name (s : String) : Bool :=
  let cs := s.toList
  decide (2 ≤ cs.length) && decide (cs.length ≤ 50) &&
    cs.all display_name_char_ok

/-! ### The database layer (`crate::database`), modelled from the spec -/

/-- Modelled from the spec: `exists(email) -> bool` (§4.3).  Source name
`exists` is a reserved word in Lean. -/
def user_exists (s : AppState) (email : String) : Bool :=
  (s.users email).isSome

/-- Modelled from the spec: `createUser(email, firstName, lastName)`
(§4.3); a fresh user is unverified and has no credential. -/
def create (s : AppState) (email firstName lastName : String) : AppState :=
  { s with users :=
      (update s.users email (some ⟨firstName, lastName, false, none⟩)) }

/-- Modelled from the spec: `setCredential(email, credential)` (§4.3). -/
def set_passkey (s : AppState) (email : String) (pk : Passkey) : AppState :=
  match s.users email with
  | some u =>
    { s with users := update s.users email (some { u with passkey := some pk }) }
  | none => s

/-- Modelled from the spec: `getCredential(email) -> Credential | None`
(§4.3). -/
def get_passkey (s : AppState) (email : String) : Option Passkey :=
  (s.users email).bind (fun u => u.passkey)

/-- Modelled from the spec: `markVerified(email)` (§4.3); fails when the
user does not exist. -/
def verify (s : AppState) (email : String) : Option AppState :=
  match s.users email with
  | some u =>
    some { s with users := update s.users email (some { u with verified := true }) }
  | none => none

/-- Modelled from the spec: token `issue(email) -> token` (§4.4); the
fresh opaque token is an argument. -/
def generate (s : AppState) (email freshToken : String) : String × AppState :=
  (freshToken, { s with tokens := update s.tokens freshToken (some email) })

/-- Modelled from the spec: token `consume(token) -> email | NotFound`
(§4.4), atomically resolving and invalidating the token. -/
def consume (s : AppState) (token : String) : Option String × AppState :=
  match s.tokens token with
  | some email => (some email, { s with tokens := update s.tokens token none })
  | none => (none, s)

/-- Modelled from the spec: the outbound mail capability
`send(toEmail, subject, body) -> Result` (§6); the delivery outcome is an
argument. -/
def send_mail (deliverOk : Bool) (toEmail subject body : String) :
    Except String Unit :=
  if deliverOk then Except.ok () else Except.error "mail delivery failed"

/-! ### The WebAuthn ceremony engine (src/utils/webauthn.rs) -/

/-- The client-facing registration challenge payload built by
`begin_registration`. -/
structure RegPayload where
  challenge : String
  userName : String
  userDisplayName : String
deriving DecidableEq, Repr

/-- The client-facing authentication challenge payload built by
`begin_authentication`. -/
structure AuthPayload where
  challenge : String
  allowCredentials : List String
deriving DecidableEq, Repr

/-- Modelled from the spec: webauthn-rs `start_passkey_registration`
produces a challenge payload and a matching opaque state (§4.1); the
fresh random challenge is an argument. -/
def start_passkey_registration (userEmail userDisplayName freshChallenge : String) :
    RegPayload × PasskeyRegistration :=
  (⟨freshChallenge, userEmail, userDisplayName⟩, ⟨freshChallenge⟩)

/-- Modelled from the spec: webauthn-rs `finish_passkey_registration`
verifies the signed attestation against the exact state of the matching
begin call (§4.1): the signed challenge must equal the state's challenge
and the attestation must be cryptographically valid. -/
def finish_passkey_registration (response : RegisterPublicKeyCredential)
    (st : PasskeyRegistration) : Option Passkey :=
  if response.challenge = st.challenge && response.valid then
    some response.passkey
  else none

/-- Modelled from the spec: webauthn-rs `start_passkey_authentication`
over a list of acceptable credentials (§4.1); the fresh random challenge
is an argument. -/
def start_passkey_authentication (keys : List Passkey) (freshChallenge : String) :
    AuthPayload × PasskeyAuthentication :=
  (⟨freshChallenge, keys.map (fun k => k.credId)⟩, ⟨freshChallenge, keys⟩)

/-- Modelled from the spec: webauthn-rs `finish_passkey_authentication`
verifies the signed assertion against the stored state (§4.1, glossary
"Challenge"): the signed challenge must equal the state's challenge, the
credential must be among the acceptable ones, and the signature valid. -/
def finish_passkey_authentication (response : PublicKeyCredential)
    (st : PasskeyAuthentication) : Bool :=
  response.challenge = st.challenge && response.valid &&
    st.allowed.any (fun k => k.credId = response.credId)

/-- `begin_registration` from src/utils/webauthn.rs: asks the library for
a challenge scoped to the relying party and returns payload and state. -/
def begin_registration (userEmail userDisplayName freshChallenge : String) :
    RegPayload × PasskeyRegistration :=
  start_passkey_registration userEmail userDisplayName freshChallenge

/-- `complete_registration` from src/utils/webauthn.rs: finish the
library ceremony, insert the credential into `CREDENTIAL_STORE`, then
persist it with `set_passkey`. -/
def complete_registration (userEmail : String)
    (response : RegisterPublicKeyCredential)
    (stored : StoredRegistrationState) (s : AppState) :
    Except String AppState :=
  match finish_passkey_registration response stored.registration_state with
  | none => Except.error "Failed to end registration"
  | some pk =>
    let s1 := { s with credentialStore := update s.credentialStore userEmail (some pk) }
    Except.ok (set_passkey s1 userEmail pk)

/-- `begin_authentication` from src/utils/webauthn.rs: look the passkey
up in `CREDENTIAL_STORE`, fall back to the durable store, fail when
neither has one, otherwise start the library ceremony over that single
credential. -/
def begin_authentication (userEmail freshChallenge : String) (s : AppState) :
    Except String (AuthPayload × PasskeyAuthentication) :=
  match s.credentialStore userEmail with
  | some pk => Except.ok (start_passkey_authentication [pk] freshChallenge)
  | none =>
    match get_passkey s userEmail with
    | some pk => Except.ok (start_passkey_authentication [pk] freshChallenge)
    | none => Except.error "Failed to retrieve passkey"

/-- `complete_authentication` from src/utils/webauthn.rs: delegates to
the library finish; the `server_challenge` argument is accepted but never
used, exactly as in the source. -/
def complete_authentication (response : PublicKeyCredential)
    (state : PasskeyAuthentication) (server_challenge : String) : Bool :=
  finish_passkey_authentication response state

/-! ### The unauthenticated handlers (src/backend/handlers_unauth.rs) -/

/-- Response body of `register_begin`. -/
structure RegBeginOut where
  publicKey : RegPayload
  state_id : String
deriving DecidableEq, Repr

/-- Response body of `login_begin`. -/
structure AuthBeginOut where
  publicKey : AuthPayload
  state_id : String
deriving DecidableEq, Repr

/-- The post-check body of `register_begin`: start the ceremony, store
its state under the fresh id, remove the email's `CREDENTIAL_STORE`
entry, and answer with payload and state id. -/
def register_begin_go (email freshChallenge freshStateId : String) (s : AppState) :
    HResult RegBeginOut × AppState :=
  let pr := begin_registration email email freshChallenge
  let stored : StoredRegistrationState := ⟨pr.2, pr.1.challenge⟩
  let s1 := { s with registrationStates :=
    (update s.registrationStates freshStateId (some stored)) }
  let s2 := { s1 with credentialStore := update s1.credentialStore email none }
  (HResult.ok ⟨pr.1, freshStateId⟩, s2)

/-- `register_begin`: validate the email, check the (reset_mode, exists)
combination, start a registration ceremony, store its state under a fresh
id, and remove the email's `CREDENTIAL_STORE` entry. -/
def register_begin (email : String) (reset_mode : Bool)
    (freshChallenge freshStateId : String) (s : AppState) :
    HResult RegBeginOut × AppState :=
  if validate_email email then
    match reset_mode, user_exists s email with
    | false, false => register_begin_go email freshChallenge freshStateId s
    | true, true => register_begin_go email freshChallenge freshStateId s
    | true, false => register_begin_go email freshChallenge freshStateId s
    | _, _ => (HResult.err 400 "Invalid registration request", s)
  else (HResult.err 400 "Invalid email format", s)

/-- The ceremony-state and completion part of `register_complete`:
take-and-remove the ceremony state, finish the ceremony, issue the
verification token and fire the verification mail (logging a mail
failure). -/
def register_complete_go (email state_id : String)
    (response : RegisterPublicKeyCredential)
    (freshToken : String) (mailOk : Bool) (s : AppState) :
    HResult Nat × AppState :=
  match s.registrationStates state_id with
  | none => (HResult.err 400 "Invalid registration session", s)
  | some stored =>
    let s1 := { s with registrationStates :=
      (update s.registrationStates state_id none) }
    match complete_registration email response stored s1 with
    | Except.error e => (HResult.err 400 e, s1)
    | Except.ok s2 =>
      let ts := generate s2 email freshToken
      match send_mail mailOk email "Verifier votre compte" "verification link" with
      | Except.ok _ => (HResult.ok 201, ts.2)
      | Except.error _ =>
        (HResult.ok 201,
         { ts.2 with log := ts.2.log ++ ["Failed to send verification email"] })

/-- `register_complete`: validate inputs, create the user (new-account
mode) or copy the cached credential to the durable store (reset mode,
with the source's `unwrap` on the cache entry), take-and-remove the
ceremony state, finish the ceremony, then issue a verification token and
fire the verification mail. -/
def register_complete (email : String) (reset_mode : Bool)
    (first_name last_name state_id : String)
    (response : RegisterPublicKeyCredential)
    (freshToken : String) (mailOk : Bool) (s : AppState) :
    HResult Nat × AppState :=
  if !validate_email email then (HResult.err 400 "Invalid email format", s)
  else if !is_valid_display_name first_name then
    (HResult.err 400 "Invalid first name", s)
  else if !is_valid_display_name last_name then
    (HResult.err 400 "Invalid last name", s)
  else
    match reset_mode, user_exists s email with
    | false, false =>
      register_complete_go email state_id response freshToken mailOk
        (create s email first_name last_name)
    | true, true =>
      match s.credentialStore email with
      | some pk =>
        register_complete_go email state_id response freshToken mailOk
          (set_passkey s email pk)
      | none =>
        (HResult.crash "called Option::unwrap on a None value", s)
    | _, _ => (HResult.err 500 "Failed to check user existence", s)

/-- `login_begin`: validate the email, start an authentication ceremony,
and store its state together with the server challenge under a fresh
id. -/
def login_begin (email freshChallenge freshStateId : String) (s : AppState) :
    HResult AuthBeginOut × AppState :=
  if validate_email email then
    match begin_authentication email freshChallenge s with
    | Except.error e => (HResult.err 400 e, s)
    | Except.ok (payload, pska) =>
      let s1 := { s with authenticationStates :=
        (update s.authenticationStates freshStateId (some ⟨pska, payload.challenge⟩)) }
      (HResult.ok ⟨payload, freshStateId⟩, s1)
  else (HResult.err 400 "Invalid email format", s)

/-- `login_complete`: take-and-remove the authentication state, verify
the assertion, and redirect to /home on success. -/
def login_complete (response : PublicKeyCredential) (state_id : String)
    (s : AppState) : HResult String × AppState :=
  match s.authenticationStates state_id with
  | none => (HResult.err 400 "Invalid or expired authentication state", s)
  | some stored =>
    let s1 := { s with authenticationStates :=
      (update s.authenticationStates state_id none) }
    if complete_authentication response stored.state stored.server_challenge then
      (HResult.ok "/home", s1)
    else (HResult.err 401 "Failed to finish authentication", s1)

/-- `validate_account`: consume the token; on success mark the user
verified and redirect to the login page; on failure redirect to the
corresponding error path.  The result is the redirect target. -/
def validate_account (token : String) (s : AppState) : String × AppState :=
  let cs := consume s token
  match cs.1 with
  | some email =>
    match verify cs.2 email with
    | some s2 => ("/login?validated=true", s2)
    | none => ("/register?error=validation_failed", cs.2)
  | none => ("/register?error=invalid_token", cs.2)

/-- `recover_account`: when the user exists, issue a recovery token and
send the recovery mail, propagating a mail failure as a 500; the success
value is the rendered recover page with its optional message. -/
def recover_account (email freshToken : String) (mailOk : Bool) (s : AppState) :
    HResult (Option String) × AppState :=
  if user_exists s email then
    let ts := generate s email freshToken
    match send_mail mailOk email "Recuperation de compte" "recovery link" with
    | Except.error _ => (HResult.err 500 "Failed to send email", ts.2)
    | Except.ok _ =>
      (HResult.ok (some "Si ce mail exist, un message de recuperation a ete envoye a cette adresse."), ts.2)
  else (HResult.ok none, s)

/-- `reset_account`: consume the recovery token and emit a meta-refresh
redirect into reset-mode registration, or to the recovery-failed path.
The result is the redirect target. -/
def reset_account (token : String) (s : AppState) : String × AppState :=
  let cs := consume s token
  match cs.1 with
  | some email =>
    ("/register?reset_mode=true&email=" ++ email ++ "&success=true", cs.2)
  | none => ("/register?error=recovery_failed", cs.2)

/-! ### The like/dislike handler (src/backend/handlers_auth.rs) -/

/-- A post with its reaction value (`likes`). -/
structure Post where
  id : String
  content : String
  likes : Int
deriving DecidableEq, Repr

/-- The effect of one `like_post` action string on a reaction value;
`none` is the invalid-action error. -/
def apply_action (current : Int) (action : String) : Option Int :=
  match action with
  | "like" => some (if current = 1 then 0 else 1)
  | "dislike" => some (if current = -1 then 0 else -1)
  | _ => none

/-- `like_post`: find the first post with the given id and apply the
action to its reaction value; 404 when absent, 400 on an invalid
action. -/
def like_post (post_id action : String) : List Post → HResult Unit × List Post
  | [] => (HResult.err 404 "Post not found", [])
  | p :: rest =>
    if p.id = post_id then
      match apply_action p.likes action with
      | some v => (HResult.ok (), { p with likes := v } :: rest)
      | none => (HResult.err 400 "Invalid action", p :: rest)
    else
      let r := like_post post_id action rest
      (r.1, p :: r.2)

/-- The empty application state, for concrete runs. -/
def emptyState : AppState :=
  { users := fun _ => none
    tokens := fun _ => none
    credentialStore := fun _ => none
    registrationStates := fun _ => none
    authenticationStates := fun _ => none
    log := [] }

/-- A sample credential, for concrete runs. -/
def samplePasskey : Passkey := ⟨"cred0", "pub0"⟩

/-- A sample user record holding `samplePasskey`, for concrete runs. -/
def sampleUser : UserRecord := ⟨"Jean", "Dupont", false, some samplePasskey⟩

/-- A state whose in-memory credential cache holds `samplePasskey` for
a@b.c. -/
def stateWithCred : AppState :=
  { emptyState with credentialStore :=
      (update emptyState.credentialStore "a@b.c" (some samplePasskey)) }

/-- A state whose durable user store holds `sampleUser` for a@b.c. -/
def stateWithUser : AppState :=
  { emptyState with users := (update emptyState.users "a@b.c" (some sampleUser)) }

/-- A state holding one pending registration-ceremony state under sid0
with challenge ch0. -/
def stateWithRegState : AppState :=
  { emptyState with registrationStates :=
      (update emptyState.registrationStates "sid0" (some ⟨⟨"ch0"⟩, "ch0"⟩)) }

/-- `stateWithUser` with a pending single-use token tok1 issued to
a@b.c. -/
def stateWithToken : AppState :=
  { stateWithUser with tokens := (update stateWithUser.tokens "tok1" (some "a@b.c")) }

/-! ## Theorems -/

/-- Claim C1: completing an authentication ceremony rejects a replayed or
substituted response: whenever the challenge embedded in the client's
signed response differs from the server challenge issued (and stored)
for that state identifier at `login_begin` time, `login_complete` fails
with 401 and produces no session redirect. -/
theorem login_complete_rejects_challenge_mismatch
    (s : AppState) (email ch sid : String) (resp : PublicKeyCredential)
    (pk : Passkey)
    (he : validate_email email = true)
    (hpk : s.credentialStore email = some pk ∨
           (s.credentialStore email = none ∧ get_passkey s email = some pk))
    (hch : resp.challenge ≠ ch) :
    (login_complete resp sid (login_begin email ch sid s).2).1 =
      HResult.err 401 "Failed to finish authentication" := by
  have hba : begin_authentication email ch s =
      Except.ok (⟨ch, [pk.credId]⟩, ⟨ch, [pk]⟩) := by
    rcases hpk with h | ⟨h1, h2⟩
    · simp [begin_authentication, start_passkey_authentication, h]
    · simp [begin_authentication, start_passkey_authentication, h1, h2]
  simp [login_begin, he, hba, login_complete, update,
    complete_authentication, finish_passkey_authentication, hch]

/-- Witness for C1: a concrete mismatching response is rejected. -/
theorem login_complete_rejects_challenge_mismatch_witness :
    (login_complete ⟨"chB", "cred0", true⟩ "sidA"
      (login_begin "a@b.c" "chA" "sidA" stateWithCred).2).1 =
      HResult.err 401 "Failed to finish authentication" :=
  login_complete_rejects_challenge_mismatch stateWithCred "a@b.c" "chA" "sidA"
    ⟨"chB", "cred0", true⟩ ⟨"cred0", "pub0"⟩ (by decide) (Or.inl rfl) (by decide)

/-- Counterexample to claim C2 as stated: with reset_mode = true and the
user absent, `register_begin` does not return a 4xx error: it proceeds to
a challenge and inserts a registration-state entry. -/
theorem register_begin_reset_absent_proceeds :
    (register_begin "a@b.c" true "ch0" "sid0" emptyState).1 =
      HResult.ok ⟨⟨"ch0", "a@b.c", "a@b.c"⟩, "sid0"⟩ ∧
    (register_begin "a@b.c" true "ch0" "sid0" emptyState).2.registrationStates "sid0" =
      some ⟨⟨"ch0"⟩, "ch0"⟩ := by
  constructor <;> rfl

/-- Claim C2 (amended): for a syntactically valid email, `register_begin`
rejects exactly the combination (reset_mode = false, user exists) with a
400 and an unchanged state; the three other combinations — including
(reset_mode = true, user absent) — all proceed to a challenge. -/
theorem register_begin_mode_check
    (s : AppState) (email : String) (reset_mode : Bool) (ch sid : String)
    (he : validate_email email = true) :
    (reset_mode = false → user_exists s email = true →
      register_begin email reset_mode ch sid s =
        (HResult.err 400 "Invalid registration request", s)) ∧
    (reset_mode = true ∨ user_exists s email = false →
      (register_begin email reset_mode ch sid s).1 =
        HResult.ok ⟨⟨ch, email, email⟩, sid⟩) := by
  constructor
  · intro hr hx
    subst hr
    simp [register_begin, he, hx]
  · intro hmode
    rcases hmode with hr | hx
    · subst hr
      cases hx : user_exists s email <;>
        simp [register_begin, he, hx, register_begin_go, begin_registration,
          start_passkey_registration]
    · cases hr : reset_mode <;>
        simp [register_begin, he, hx, hr, register_begin_go, begin_registration,
          start_passkey_registration]

/-- Witness for C2 (amended): concrete rejected and accepted runs. -/
theorem register_begin_mode_check_witness :
    (register_begin "a@b.c" false "ch0" "sid0" stateWithUser =
      (HResult.err 400 "Invalid registration request", stateWithUser)) ∧
    ((register_begin "a@b.c" false "ch0" "sid0" emptyState).1 =
      HResult.ok ⟨⟨"ch0", "a@b.c", "a@b.c"⟩, "sid0"⟩) :=
  ⟨(register_begin_mode_check stateWithUser "a@b.c" false "ch0" "sid0"
      (by decide)).1 rfl rfl,
   (register_begin_mode_check emptyState "a@b.c" false "ch0" "sid0"
      (by decide)).2 (Or.inr rfl)⟩

/-- Counterexample to claim C3 as stated: after a successful new-account
`register_complete`, an identical repeated call with the same state
identifier does not fail with a 4xx ceremony-state error: it fails
earlier, with the 500 mode-check error, because the user now exists. -/
theorem register_complete_repeat_is_500 :
    (register_complete "a@b.c" false "Jean" "Dupont" "sid0"
        ⟨"ch0", true, samplePasskey⟩ "tok0" true stateWithRegState).1 =
      HResult.ok 201 ∧
    (register_complete "a@b.c" false "Jean" "Dupont" "sid0"
        ⟨"ch0", true, samplePasskey⟩ "tok0" true
        (register_complete "a@b.c" false "Jean" "Dupont" "sid0"
          ⟨"ch0", true, samplePasskey⟩ "tok0" true stateWithRegState).2).1 =
      HResult.err 500 "Failed to check user existence" := by
  constructor <;> rfl

/-- `complete_registration` never touches the ceremony-state maps. -/
theorem complete_registration_preserves_states (email : String)
    (resp : RegisterPublicKeyCredential) (stored : StoredRegistrationState)
    (s s2 : AppState) (h : complete_registration email resp stored s = Except.ok s2) :
    s2.registrationStates = s.registrationStates ∧
    s2.authenticationStates = s.authenticationStates := by
  unfold complete_registration at h
  cases hf : finish_passkey_registration resp stored.registration_state with
  | none => rw [hf] at h; cases h
  | some pk =>
    rw [hf] at h
    simp only [Except.ok.injEq] at h
    subst h
    unfold set_passkey
    split <;> simp

/-- `register_complete_go` always leaves the looked-up identifier absent,
and fails with the ceremony-state 400 when the identifier is absent. -/
theorem register_complete_go_one_time (email sid tok : String)
    (resp : RegisterPublicKeyCredential) (mo : Bool) (s : AppState) :
    ((register_complete_go email sid resp tok mo s).2).registrationStates sid = none ∧
    (s.registrationStates sid = none →
      (register_complete_go email sid resp tok mo s).1 =
        HResult.err 400 "Invalid registration session") := by
  cases hs : s.registrationStates sid with
  | none => simp [register_complete_go, hs]
  | some stored =>
    refine ⟨?_, fun h => Option.noConfusion h⟩
    simp only [register_complete_go, hs]
    cases hc : complete_registration email resp stored
        { s with registrationStates := (update s.registrationStates sid none) } with
    | error e => simp [hc, update]
    | ok s2 =>
      have hp := (complete_registration_preserves_states email resp stored _ s2 hc).1
      cases hm : send_mail mo email "Verifier votre compte" "verification link" with
      | ok u => simp [hc, hm, generate, hp, update]
      | error e => simp [hc, hm, generate, hp, update]

/-- Claim C3 (amended): ceremony state identifiers are one-time use: every
`register_complete` that reaches the state lookup removes the entry (so
after a successful complete the identifier is absent), and a call finding
the identifier absent fails with the 400 ceremony-state error; likewise
for `login_complete`.  (As stated the claim fails only in that an
identical repeated new-account `register_complete` fails earlier, with the
500 mode-check error, because the user now exists.) -/
theorem ceremony_state_one_time_use
    (s : AppState) (email first last sid tok : String) (mo reset_mode : Bool)
    (rresp : RegisterPublicKeyCredential) (aresp : PublicKeyCredential)
    (he : validate_email email = true)
    (hf : is_valid_display_name first = true)
    (hl : is_valid_display_name last = true)
    (harm : (reset_mode = false ∧ s.users email = none) ∨
            (reset_mode = true ∧ (s.users email).isSome = true ∧
             (s.credentialStore email).isSome = true)) :
    ((register_complete email reset_mode first last sid rresp tok mo s).2).registrationStates sid = none ∧
    (s.registrationStates sid = none →
      (register_complete email reset_mode first last sid rresp tok mo s).1 =
        HResult.err 400 "Invalid registration session") ∧
    ((login_complete aresp sid s).2).authenticationStates sid = none ∧
    (s.authenticationStates sid = none →
      (login_complete aresp sid s).1 =
        HResult.err 400 "Invalid or expired authentication state") := by
  have hlogin : ((login_complete aresp sid s).2).authenticationStates sid = none ∧
      (s.authenticationStates sid = none →
        (login_complete aresp sid s).1 =
          HResult.err 400 "Invalid or expired authentication state") := by
    cases ha : s.authenticationStates sid with
    | none => simp [login_complete, ha]
    | some stored =>
      refine ⟨?_, fun h => Option.noConfusion h⟩
      simp only [login_complete, ha]
      split <;> simp [update]
  rcases harm with ⟨hr, hu⟩ | ⟨hr, hu, hc⟩
  · subst hr
    have hred : register_complete email false first last sid rresp tok mo s =
        register_complete_go email sid rresp tok mo (create s email first last) := by
      simp [register_complete, he, hf, hl, user_exists, hu]
    have hgo := register_complete_go_one_time email sid tok rresp mo
      (create s email first last)
    have hcr : (create s email first last).registrationStates = s.registrationStates := rfl
    exact ⟨by rw [hred]; exact hgo.1,
      fun h => by rw [hred]; exact hgo.2 (by rw [hcr]; exact h),
      hlogin.1, hlogin.2⟩
  · subst hr
    obtain ⟨u, hu⟩ := Option.isSome_iff_exists.mp hu
    obtain ⟨pk, hc⟩ := Option.isSome_iff_exists.mp hc
    have hred : register_complete email true first last sid rresp tok mo s =
        register_complete_go email sid rresp tok mo (set_passkey s email pk) := by
      simp [register_complete, he, hf, hl, user_exists, hu, hc]
    have hgo := register_complete_go_one_time email sid tok rresp mo
      (set_passkey s email pk)
    have hcr : (set_passkey s email pk).registrationStates = s.registrationStates := by
      unfold set_passkey; split <;> simp
    exact ⟨by rw [hred]; exact hgo.1,
      fun h => by rw [hred]; exact hgo.2 (by rw [hcr]; exact h),
      hlogin.1, hlogin.2⟩

/-- Witness for C3 (amended), at a concrete new-account run with an
absent identifier. -/
theorem ceremony_state_one_time_use_witness :
    ((register_complete "a@b.c" false "Jean" "Dupont" "sidX"
        ⟨"ch0", true, samplePasskey⟩ "tok0" true emptyState).2).registrationStates "sidX" = none ∧
    (register_complete "a@b.c" false "Jean" "Dupont" "sidX"
        ⟨"ch0", true, samplePasskey⟩ "tok0" true emptyState).1 =
      HResult.err 400 "Invalid registration session" ∧
    ((login_complete ⟨"chA", "cred0", true⟩ "sidX" emptyState).2).authenticationStates "sidX" = none ∧
    (login_complete ⟨"chA", "cred0", true⟩ "sidX" emptyState).1 =
      HResult.err 400 "Invalid or expired authentication state" := by
  have h := ceremony_state_one_time_use emptyState "a@b.c" "Jean" "Dupont"
    "sidX" "tok0" true false ⟨"ch0", true, samplePasskey⟩ ⟨"chA", "cred0", true⟩
    (by decide) (by decide) (by decide) (Or.inl ⟨rfl, rfl⟩)
  exact ⟨h.1, h.2.1 rfl, h.2.2.1, h.2.2.2 rfl⟩

/-- Claim C4 is wrong about the code (and the code wrong about the spec's
"overwrites the existing credential from the cache"): for every reset
ceremony begun via `register_begin` — which removes the email's
credential-cache entry before returning — the reset-mode
`register_complete` finds the cache empty and its `unwrap` on the cache
entry panics; the panic branch is reached, not unreachable. -/
theorem register_complete_reset_after_begin_crashes
    (s : AppState) (email first last ch sid tok : String) (mo : Bool)
    (resp : RegisterPublicKeyCredential) (u : UserRecord)
    (he : validate_email email = true)
    (hf : is_valid_display_name first = true)
    (hl : is_valid_display_name last = true)
    (hu : s.users email = some u) :
    (register_complete email true first last sid resp tok mo
        (register_begin email true ch sid s).2).1 =
      HResult.crash "called Option::unwrap on a None value" := by
  have hb : register_begin email true ch sid s =
      register_begin_go email ch sid s := by
    simp [register_begin, he, user_exists, hu]
  rw [hb]
  simp [register_begin_go, register_complete, he, hf, hl, user_exists, hu,
    update, begin_registration, start_passkey_registration]

/-- Witness for C4: the concrete straight-line reset ceremony panics. -/
theorem register_complete_reset_after_begin_crashes_witness :
    (register_complete "a@b.c" true "Jean" "Dupont" "sid0"
        ⟨"ch0", true, samplePasskey⟩ "tok0" true
        (register_begin "a@b.c" true "ch0" "sid0" stateWithUser).2).1 =
      HResult.crash "called Option::unwrap on a None value" :=
  register_complete_reset_after_begin_crashes stateWithUser "a@b.c" "Jean"
    "Dupont" "ch0" "sid0" "tok0" true ⟨"ch0", true, samplePasskey⟩ sampleUser
    (by decide) (by decide) (by decide) rfl

/-- Claim C5: `begin_authentication` fails with the no-credential error
exactly when the email has no credential in the in-memory cache and none
in the durable store; when either holds one, it returns a challenge
payload whose allowCredentials lists exactly that single credential,
plus the opaque state object capturing it. -/
theorem begin_authentication_no_credential_iff
    (s : AppState) (email ch : String) :
    (begin_authentication email ch s = Except.error "Failed to retrieve passkey" ↔
      s.credentialStore email = none ∧ get_passkey s email = none) ∧
    (∀ pk, s.credentialStore email = some pk →
      begin_authentication email ch s =
        Except.ok (⟨ch, [pk.credId]⟩, ⟨ch, [pk]⟩)) ∧
    (∀ pk, s.credentialStore email = none → get_passkey s email = some pk →
      begin_authentication email ch s =
        Except.ok (⟨ch, [pk.credId]⟩, ⟨ch, [pk]⟩)) := by
  refine ⟨?_, ?_, ?_⟩
  · cases hc : s.credentialStore email with
    | some pk => simp [begin_authentication, hc, start_passkey_authentication]
    | none =>
      cases hg : get_passkey s email with
      | some pk => simp [begin_authentication, hc, hg, start_passkey_authentication]
      | none => simp [begin_authentication, hc, hg]
  · intro pk hc
    simp [begin_authentication, hc, start_passkey_authentication]
  · intro pk hc hg
    simp [begin_authentication, hc, hg, start_passkey_authentication]

/-- Witness for C5: the cache-hit, the durable-store-hit and the
no-credential outcome at concrete states. -/
theorem begin_authentication_no_credential_iff_witness :
    begin_authentication "a@b.c" "chA" stateWithCred =
      Except.ok (⟨"chA", ["cred0"]⟩, ⟨"chA", [samplePasskey]⟩) ∧
    begin_authentication "a@b.c" "chA" stateWithUser =
      Except.ok (⟨"chA", ["cred0"]⟩, ⟨"chA", [samplePasskey]⟩) ∧
    begin_authentication "a@b.c" "chA" emptyState =
      Except.error "Failed to retrieve passkey" :=
  ⟨(begin_authentication_no_credential_iff stateWithCred "a@b.c" "chA").2.1
      samplePasskey rfl,
   (begin_authentication_no_credential_iff stateWithUser "a@b.c" "chA").2.2
      samplePasskey rfl rfl,
   (begin_authentication_no_credential_iff emptyState "a@b.c" "chA").1.mpr
      ⟨rfl, rfl⟩⟩

/-- Claim C6: single-use tokens are consumed exactly once: the first
consume of an issued token resolves to the issuing email — so
`validate_account` marks the user verified and redirects to the login
page — and every later consume of the same token fails, so
`validate_account` redirects to the invalid-token path and
`reset_account` to the recovery-failed path. -/
theorem token_consume_once
    (s : AppState) (t email : String) (u : UserRecord)
    (ht : s.tokens t = some email)
    (hu : s.users email = some u) :
    (consume s t).1 = some email ∧
    ((consume s t).2).tokens t = none ∧
    (consume ((consume s t).2) t).1 = none ∧
    (validate_account t s).1 = "/login?validated=true" ∧
    ((validate_account t s).2).users email = some { u with verified := true } ∧
    (validate_account t ((validate_account t s).2)).1 =
      "/register?error=invalid_token" ∧
    (reset_account t ((validate_account t s).2)).1 =
      "/register?error=recovery_failed" := by
  refine ⟨?_, ?_, ?_, ?_, ?_, ?_, ?_⟩ <;>
    simp [consume, validate_account, reset_account, verify, ht, hu, update]

/-- Witness for C6: a concrete token life cycle. -/
theorem token_consume_once_witness :
    (consume stateWithToken "tok1").1 = some "a@b.c" ∧
    ((consume stateWithToken "tok1").2).tokens "tok1" = none ∧
    (consume ((consume stateWithToken "tok1").2) "tok1").1 = none ∧
    (validate_account "tok1" stateWithToken).1 = "/login?validated=true" ∧
    ((validate_account "tok1" stateWithToken).2).users "a@b.c" =
      some { sampleUser with verified := true } ∧
    (validate_account "tok1" ((validate_account "tok1" stateWithToken).2)).1 =
      "/register?error=invalid_token" ∧
    (reset_account "tok1" ((validate_account "tok1" stateWithToken).2)).1 =
      "/register?error=recovery_failed" :=
  token_consume_once stateWithToken "tok1" "a@b.c" sampleUser rfl rfl

/-- Counterexample to claim C7 as stated: for an existing user,
`recover_account` does not return its success page when the mail send
fails — the failure surfaces as a 500. -/
theorem recover_account_mail_failure_surfaces :
    (recover_account "a@b.c" "tokR" false stateWithUser).1 =
      HResult.err 500 "Failed to send email" := rfl

/-- The caller-visible outcome of `register_complete_go` does not depend
on the mail-delivery outcome. -/
theorem register_complete_go_mail_independent (email sid tok : String)
    (resp : RegisterPublicKeyCredential) (s : AppState) :
    (register_complete_go email sid resp tok false s).1 =
      (register_complete_go email sid resp tok true s).1 := by
  unfold register_complete_go
  cases hs : s.registrationStates sid with
  | none => rfl
  | some stored =>
    cases hc : complete_registration email resp stored
        { s with registrationStates := (update s.registrationStates sid none) } with
    | error e => simp [hc]
    | ok s2 => simp [hc, send_mail]

/-- Claim C7 (amended): a failing outbound mail send never changes the
outcome of `register_complete` (it still returns 201 Created, the failure
being only logged), but `recover_account` does propagate a mail failure:
for an existing user it returns a 500 instead of its success page. -/
theorem mail_failure_outcomes
    (email first last sid tok email2 tok2 : String) (rm : Bool)
    (resp : RegisterPublicKeyCredential) (s s2 : AppState)
    (hu : user_exists s2 email2 = true) :
    (register_complete email rm first last sid resp tok false s).1 =
      (register_complete email rm first last sid resp tok true s).1 ∧
    (recover_account email2 tok2 false s2).1 =
      HResult.err 500 "Failed to send email" := by
  constructor
  · unfold register_complete
    split
    · rfl
    split
    · rfl
    split
    · rfl
    split
    · apply register_complete_go_mail_independent
    · split
      · apply register_complete_go_mail_independent
      · rfl
    · rfl
  · simp [recover_account, hu, send_mail]

/-- Witness for C7 (amended): concrete runs with failing mail. -/
theorem mail_failure_outcomes_witness :
    (register_complete "a@b.c" false "Jean" "Dupont" "sid0"
        ⟨"ch0", true, samplePasskey⟩ "tok0" false stateWithRegState).1 =
      (register_complete "a@b.c" false "Jean" "Dupont" "sid0"
        ⟨"ch0", true, samplePasskey⟩ "tok0" true stateWithRegState).1 ∧
    (recover_account "a@b.c" "tokR" false stateWithUser).1 =
      HResult.err 500 "Failed to send email" :=
  mail_failure_outcomes "a@b.c" "Jean" "Dupont" "sid0" "tok0" "a@b.c" "tokR"
    false ⟨"ch0", true, samplePasskey⟩ stateWithRegState stateWithUser rfl

/-- Claim C8: for a post whose reaction value is 0, applying like twice
in a row returns its reaction value to 0 (toggle semantics), applying
like then dislike yields -1, and the like/dislike actions only ever set
the value to an element of {-1, 0, 1}. -/
theorem like_dislike_toggle (p : Post) (rest : List Post) (h : p.likes = 0) :
    (like_post p.id "like" (like_post p.id "like" (p :: rest)).2).2 = p :: rest ∧
    (like_post p.id "dislike" (like_post p.id "like" (p :: rest)).2).2 =
      { p with likes := -1 } :: rest ∧
    (∀ v : Int, apply_action v "like" = some 0 ∨ apply_action v "like" = some 1) ∧
    (∀ v : Int, apply_action v "dislike" = some 0 ∨
      apply_action v "dislike" = some (-1)) := by
  obtain ⟨pid, pc, pl⟩ := p
  simp only [] at h
  subst h
  refine ⟨?_, ?_, ?_, ?_⟩
  · simp [like_post, apply_action]
  · simp [like_post, apply_action]
  · intro v
    by_cases hv : v = 1 <;> simp [apply_action, hv]
  · intro v
    by_cases hv : v = -1 <;> simp [apply_action, hv]

/-- Witness for C8: a concrete post with reaction value 0. -/
theorem like_dislike_toggle_witness :
    (like_post "p1" "like"
      (like_post "p1" "like" [(⟨"p1", "hello", 0⟩ : Post)]).2).2 =
      [(⟨"p1", "hello", 0⟩ : Post)] ∧
    (like_post "p1" "dislike"
      (like_post "p1" "like" [(⟨"p1", "hello", 0⟩ : Post)]).2).2 =
      [(⟨"p1", "hello", -1⟩ : Post)] ∧
    (apply_action 5 "like" = some 0 ∨ apply_action 5 "like" = some 1) ∧
    (apply_action 5 "dislike" = some 0 ∨ apply_action 5 "dislike" = some (-1)) := by
  have h := like_dislike_toggle ⟨"p1", "hello", 0⟩ [] rfl
  exact ⟨h.1, h.2.1, h.2.2.1 5, h.2.2.2 5⟩

/-- Claim C9: in new-account mode, `register_complete` creates the
durable user record before the ceremony-state lookup and before the
attestation verification, so on a missing/consumed state identifier, and
likewise on cryptographic verification failure, the handler returns an
error yet the newly created user record remains in the store. -/
theorem register_complete_error_keeps_created_user
    (s : AppState) (email first last sid tok : String) (mo : Bool)
    (resp : RegisterPublicKeyCredential)
    (he : validate_email email = true)
    (hf : is_valid_display_name first = true)
    (hl : is_valid_display_name last = true)
    (hu : s.users email = none) :
    (s.registrationStates sid = none →
      (register_complete email false first last sid resp tok mo s).1 =
        HResult.err 400 "Invalid registration session" ∧
      ((register_complete email false first last sid resp tok mo s).2).users email =
        some ⟨first, last, false, none⟩) ∧
    (∀ st, s.registrationStates sid = some st →
      resp.challenge ≠ st.registration_state.challenge ∨ resp.valid = false →
      (register_complete email false first last sid resp tok mo s).1 =
        HResult.err 400 "Failed to end registration" ∧
      ((register_complete email false first last sid resp tok mo s).2).users email =
        some ⟨first, last, false, none⟩) := by
  have hred : register_complete email false first last sid resp tok mo s =
      register_complete_go email sid resp tok mo (create s email first last) := by
    simp [register_complete, he, hf, hl, user_exists, hu]
  constructor
  · intro hs
    rw [hred]
    simp [register_complete_go, hs, create, update]
  · intro st hs hbad
    rw [hred]
    rcases hbad with hb | hb <;>
      simp [register_complete_go, hs, complete_registration,
        finish_passkey_registration, hb, create, update]

/-- Witness for C9: concrete missing-identifier and failed-verification
runs, each leaving the created user behind. -/
theorem register_complete_error_keeps_created_user_witness :
    (register_complete "a@b.c" false "Jean" "Dupont" "sidX"
        ⟨"ch0", true, samplePasskey⟩ "tok0" true emptyState).1 =
      HResult.err 400 "Invalid registration session" ∧
    ((register_complete "a@b.c" false "Jean" "Dupont" "sidX"
        ⟨"ch0", true, samplePasskey⟩ "tok0" true emptyState).2).users "a@b.c" =
      some ⟨"Jean", "Dupont", false, none⟩ ∧
    (register_complete "a@b.c" false "Jean" "Dupont" "sid0"
        ⟨"WRONG", true, samplePasskey⟩ "tok0" true stateWithRegState).1 =
      HResult.err 400 "Failed to end registration" ∧
    ((register_complete "a@b.c" false "Jean" "Dupont" "sid0"
        ⟨"WRONG", true, samplePasskey⟩ "tok0" true stateWithRegState).2).users "a@b.c" =
      some ⟨"Jean", "Dupont", false, none⟩ := by
  have h1 := (register_complete_error_keeps_created_user emptyState "a@b.c"
    "Jean" "Dupont" "sidX" "tok0" true ⟨"ch0", true, samplePasskey⟩
    (by decide) (by decide) (by decide) rfl).1 rfl
  have h2 := (register_complete_error_keeps_created_user stateWithRegState
    "a@b.c" "Jean" "Dupont" "sid0" "tok0" true ⟨"WRONG", true, samplePasskey⟩
    (by decide) (by decide) (by decide) rfl).2 ⟨⟨"ch0"⟩, "ch0"⟩ rfl
    (Or.inl (by decide))
  exact ⟨h1.1, h1.2, h2.1, h2.2⟩

/-- Claim C10: every `register_begin` call that passes email validation
and the mode check removes the email's credential-cache entry — even
though the ceremony may never complete — and, apart from that removal and
the insertion of one registration-state entry under the fresh id, leaves
all other cache entries, the rest of the registration-state map, the
whole authentication-state map, the user store and the token store
unchanged. -/
theorem register_begin_frame
    (s : AppState) (email ch sid : String) (reset_mode : Bool)
    (he : validate_email email = true)
    (hmode : reset_mode = true ∨ user_exists s email = false) :
    ((register_begin email reset_mode ch sid s).2).credentialStore email = none ∧
    (∀ k, k ≠ email →
      ((register_begin email reset_mode ch sid s).2).credentialStore k =
        s.credentialStore k) ∧
    ((register_begin email reset_mode ch sid s).2).registrationStates sid =
      some ⟨⟨ch⟩, ch⟩ ∧
    (∀ k, k ≠ sid →
      ((register_begin email reset_mode ch sid s).2).registrationStates k =
        s.registrationStates k) ∧
    ((register_begin email reset_mode ch sid s).2).authenticationStates =
      s.authenticationStates ∧
    ((register_begin email reset_mode ch sid s).2).users = s.users ∧
    ((register_begin email reset_mode ch sid s).2).tokens = s.tokens := by
  have hb : register_begin email reset_mode ch sid s =
      register_begin_go email ch sid s := by
    rcases hmode with hr | hx
    · subst hr
      cases hx : user_exists s email <;> simp [register_begin, he, hx]
    · cases hr : reset_mode <;> simp [register_begin, he, hx, hr]
  rw [hb]
  refine ⟨?_, ?_, ?_, ?_, rfl, rfl, rfl⟩
  · simp [register_begin_go, update]
  · intro k hk
    simp [register_begin_go, update, hk]
  · simp [register_begin_go, update, begin_registration,
      start_passkey_registration]
  · intro k hk
    simp [register_begin_go, update, hk]

/-- Witness for C10: the concrete frame of one `register_begin` run. -/
theorem register_begin_frame_witness :
    ((register_begin "a@b.c" false "ch0" "sid0" emptyState).2).credentialStore "a@b.c" = none ∧
    ((register_begin "a@b.c" false "ch0" "sid0" emptyState).2).credentialStore "x@y.z" =
      emptyState.credentialStore "x@y.z" ∧
    ((register_begin "a@b.c" false "ch0" "sid0" emptyState).2).registrationStates "sid0" =
      some ⟨⟨"ch0"⟩, "ch0"⟩ ∧
    ((register_begin "a@b.c" false "ch0" "sid0" emptyState).2).registrationStates "sidY" =
      emptyState.registrationStates "sidY" ∧
    ((register_begin "a@b.c" false "ch0" "sid0" emptyState).2).authenticationStates =
      emptyState.authenticationStates ∧
    ((register_begin "a@b.c" false "ch0" "sid0" emptyState).2).users = emptyState.users ∧
    ((register_begin "a@b.c" false "ch0" "sid0" emptyState).2).tokens = emptyState.tokens := by
  have h := register_begin_frame emptyState "a@b.c" "ch0" "sid0" false
    (by decide) (Or.inr rfl)
  exact ⟨h.1, h.2.1 "x@y.z" (by decide), h.2.2.1, h.2.2.2.1 "sidY" (by decide),
    h.2.2.2.2.1, h.2.2.2.2.2.1, h.2.2.2.2.2.2⟩

end WebAuth
